import Mathlib

/-!
Verification development for the joycontrol controller emulator
(`run_controller_cli.py` and `joycontrol/server.py`).

The definitions below are a shallow embedding of the Python source.
Pure functions become Lean functions, the asynchronous tail of
`create_hid_server` becomes a small-step event semantics, fallible code
returns `Except`.  Components of the repository that are not among the
two source files (the `joycontrol` package modules `controller_state.py`,
`controller.py`, `memory.py`, `protocol.py`, `command_line_interface.py`)
are modelled from the specification; each such definition carries a doc
comment starting with `Modelled from the spec:`.
-/

namespace Joycontrol

/-- Modelled from the spec: the controller variant
("one of three fixed identifiers chosen at connection setup";
`joycontrol/controller.py` is not among the source files). -/
inductive Controller
  | JOYCON_L
  | JOYCON_R
  | PRO_CONTROLLER
deriving DecidableEq

/-- Modelled from the spec: `Controller.from_arg` (in `joycontrol/controller.py`,
not among the source files) maps the command-line identifier to the variant;
`run_controller_cli.py` documents the accepted values as
"JOYCON_R, JOYCON_L or PRO_CONTROLLER". -/
def Controller.from_arg (s : String) : Except String Controller :=
  if s = "JOYCON_L" then Except.ok Controller.JOYCON_L
  else if s = "JOYCON_R" then Except.ok Controller.JOYCON_R
  else if s = "PRO_CONTROLLER" then Except.ok Controller.PRO_CONTROLLER
  else Except.error ("unknown controller")

/-- Stick positions as the command-line interface sets them: a named
calibrated direction (`center`, `up`, `down`, `left`, `right`). -/
inductive StickDirection
  | center
  | up
  | down
  | left
  | right
deriving DecidableEq

/-- Modelled from the spec: the mutable controller state
(`joycontrol/controller_state.py` is not among the source files).
"Identity: controller variant ... immutable after creation"; "Button set:
mapping from button name to pressed/released boolean"; "NFC payload:
optional byte buffer". Buttons are kept as an association list, the NFC
payload as an optional byte list. -/
structure ControllerState where
  controller : Controller
  buttons : List (String × Bool)
  l_stick_state : StickDirection
  r_stick_state : StickDirection
  nfc_content : Option (List Nat)
deriving DecidableEq

/-- Modelled from the spec: "the set of valid names is variant-dependent"
(the concrete lists live in `joycontrol/controller_state.py`, not among the
source files; these are the upstream button sets of the three variants). -/
def get_available_buttons : Controller → List String
  | Controller.PRO_CONTROLLER =>
      ["y", "x", "b", "a", "r", "zr", "minus", "plus", "r_stick", "l_stick",
       "home", "capture", "down", "up", "right", "left", "l", "zl"]
  | Controller.JOYCON_R =>
      ["y", "x", "b", "a", "sr", "sl", "r", "zr", "minus", "plus", "r_stick", "home"]
  | Controller.JOYCON_L =>
      ["down", "up", "right", "left", "sr", "sl", "l", "zl", "minus", "l_stick", "capture"]

/-- Update one key of a button association list, appending it if absent. -/
def updateButtons (k : String) (v : Bool) : List (String × Bool) → List (String × Bool)
  | [] => [(k, v)]
  | (k2, v2) :: rest =>
      if k2 = k then (k, v) :: rest else (k2, v2) :: updateButtons k v rest

/-- Modelled from the spec: `ControllerState.set_button`
("calling `set_button` with a name invalid for the configured variant
always raises `UnsupportedControl`, never mutates state"; valid names set
the pressed/released boolean). -/
def ControllerState.set_button (cs : ControllerState) (name : String) (pushed : Bool) :
    Except String ControllerState :=
  if name ∈ get_available_buttons cs.controller then
    Except.ok { cs with buttons := updateButtons name pushed cs.buttons }
  else
    Except.error ("UnsupportedControl")

/-- The pressed/released boolean recorded for a button name
(unset names read as released). -/
def buttonPressed (buttons : List (String × Bool)) (name : String) : Bool :=
  (buttons.lookup name).getD false

/-- Modelled from the spec: `ControllerState.set_nfc`
("NFC payload: optional byte buffer representing a virtual NFC tag;
set/cleared by external control"): it replaces exactly the NFC payload slot. -/
def ControllerState.set_nfc (cs : ControllerState) (v : Option (List Nat)) : ControllerState :=
  { cs with nfc_content := v }

/-- Modelled from the spec: `ControllerState.get_controller` returns the
variant chosen at creation. -/
def ControllerState.get_controller (cs : ControllerState) : Controller :=
  cs.controller

/-- Modelled from the spec: `ControllerCLI._set_stick`
(`joycontrol/command_line_interface.py` is not among the source files) moves
the given stick to the named calibrated direction; other strings leave the
stick where it was. -/
def cliSetStick (current : StickDirection) (direction : String) : StickDirection :=
  if direction = "center" then StickDirection.center
  else if direction = "up" then StickDirection.up
  else if direction = "down" then StickDirection.down
  else if direction = "left" then StickDirection.left
  else if direction = "right" then StickDirection.right
  else current

/-- An input report as far as the claims observe it: the button/stick payload
encoded from the controller state (spec: "InputReport ... button/stick/IMU
payload ... Produced by encoding current ControllerState"). -/
structure InputReport where
  buttons : List (String × Bool)
  l_stick : StickDirection
  r_stick : StickDirection
deriving DecidableEq

/-- Encode the current controller-state snapshot into an input report. -/
def encode_input (cs : ControllerState) : InputReport :=
  InputReport.mk cs.buttons cs.l_stick_state cs.r_stick_state

/-- Modelled from the spec: `ControllerState.send`
(`joycontrol/controller_state.py` is not among the source files): "a handle
that, when invoked, guarantees the current snapshot of this state is
incorporated into at least one subsequently transmitted input report, and
that the call does not return until that report has been handed to the
transport". The transport is the list of reports handed over so far; `send`
returns once a report of the current snapshot has been appended. -/
def ControllerState.send (cs : ControllerState) (sent : List InputReport) : List InputReport :=
  sent ++ [encode_input cs]

/-! ### `directStateSet` (run_controller_cli.py, lines 295-333)

Sets button/stick states during recording playback: recognized button names
are pressed through `set_button` and committed with `await
controller_state.send()`; recognized stick names move the corresponding
stick through `ControllerCLI._set_stick` and commit likewise; anything else
falls through without touching the state. -/

/-- The `btnsList` literal of `directStateSet`. -/
def btnsList : List String :=
  ["x", "y", "b", "a", "plus", "minus", "home", "capture", "zl", "zr", "l", "r",
   "up", "down", "left", "right"]

/-- The `lStickList` literal of `directStateSet`. -/
def lStickList : List String :=
  ["lStickUp", "lStickDown", "lStickL", "lStickR"]

/-- The `rStickList` literal of `directStateSet`. -/
def rStickList : List String :=
  ["rStickUp", "rStickDown", "rStickL", "rStickR"]

/-- Embedding of `directStateSet`: the mutated controller state together with
the transport's report list after the `await controller_state.send()` calls.
A `set_button` failure propagates as the raised exception. -/
def directStateSet (btnTrans : String) (cs : ControllerState) (sent : List InputReport) :
    Except String (ControllerState × List InputReport) :=
  if btnTrans ∈ btnsList then
    match cs.set_button btnTrans true with
    | Except.error e => Except.error e
    | Except.ok cs2 => Except.ok (cs2, cs2.send sent)
  else if btnTrans ∈ lStickList then
    if btnTrans = "lStickDown" then
      let cs2 := { cs with l_stick_state := cliSetStick cs.l_stick_state ("down") }
      Except.ok (cs2, cs2.send sent)
    else if btnTrans = "lStickUp" then
      let cs2 := { cs with l_stick_state := cliSetStick cs.l_stick_state ("up") }
      Except.ok (cs2, cs2.send sent)
    else if btnTrans = "lStickL" then
      let cs2 := { cs with l_stick_state := cliSetStick cs.l_stick_state ("left") }
      Except.ok (cs2, cs2.send sent)
    else if btnTrans = "lStickR" then
      let cs2 := { cs with l_stick_state := cliSetStick cs.l_stick_state ("right") }
      Except.ok (cs2, cs2.send sent)
    else Except.ok (cs, sent)
  else if btnTrans ∈ rStickList then
    if btnTrans = "rStickDown" then
      let cs2 := { cs with r_stick_state := cliSetStick cs.r_stick_state ("down") }
      Except.ok (cs2, cs2.send sent)
    else if btnTrans = "rStickUp" then
      let cs2 := { cs with r_stick_state := cliSetStick cs.r_stick_state ("up") }
      Except.ok (cs2, cs2.send sent)
    else if btnTrans = "rStickL" then
      let cs2 := { cs with r_stick_state := cliSetStick cs.r_stick_state ("left") }
      Except.ok (cs2, cs2.send sent)
    else if btnTrans = "rStickR" then
      let cs2 := { cs with r_stick_state := cliSetStick cs.r_stick_state ("right") }
      Except.ok (cs2, cs2.send sent)
    else Except.ok (cs, sent)
  else Except.ok (cs, sent)

/-- The stick direction a recognized stick-transition name selects in
`directStateSet` (`lStickDown` moves the left stick down, and so on). -/
def stickDirOf : String → StickDirection
  | "lStickUp" => StickDirection.up
  | "lStickDown" => StickDirection.down
  | "lStickL" => StickDirection.left
  | "lStickR" => StickDirection.right
  | "rStickUp" => StickDirection.up
  | "rStickDown" => StickDirection.down
  | "rStickL" => StickDirection.left
  | "rStickR" => StickDirection.right
  | _ => StickDirection.center

/-! ### `mash_button` (run_controller_cli.py, lines 716-732)

After waiting for the connection, the function raises `ValueError` when the
requested button is not among the available buttons of the configured
variant; only then does it enter the `button_push` loop (which runs until
user input arrives; the embedding takes the number of completed loop
iterations as a parameter). -/

/-- Modelled from the spec: `button_push` (`joycontrol/controller_state.py`,
not among the source files) presses and then releases the named button via
`set_button` and commits each change. -/
def button_push (cs : ControllerState) (button : String) : Except String ControllerState :=
  match cs.set_button button true with
  | Except.error e => Except.error e
  | Except.ok cs2 =>
      match cs2.set_button button false with
      | Except.error e => Except.error e
      | Except.ok cs3 => Except.ok cs3

/-- The `while not user_input.done()` loop of `mash_button`, unrolled for a
given number of iterations; the returned number counts the presses performed. -/
def mash_loop (button : String) : ControllerState → Nat → Except String (ControllerState × Nat)
  | cs, 0 => Except.ok (cs, 0)
  | cs, n + 1 =>
      match button_push cs button with
      | Except.error e => Except.error e
      | Except.ok cs2 =>
          match mash_loop button cs2 n with
          | Except.error e => Except.error e
          | Except.ok (cs3, k) => Except.ok (cs3, k + 1)

/-- Embedding of `mash_button`: the guard
`if button not in controller_state.button_state.get_available_buttons()`
raises before any press; otherwise the push loop runs. -/
def mash_button (cs : ControllerState) (button : String) (iterations : Nat) :
    Except String (ControllerState × Nat) :=
  if button ∉ get_available_buttons cs.controller then
    Except.error ("Button " ++ button ++ " does not exist on the controller")
  else
    mash_loop button cs iterations

/-! ### NFC operations (run_controller_cli.py, lines 703-713 and 821-837) -/

/-- Embedding of the module-level `set_nfc` coroutine: it reads the entire
dump file (`nfc_file.read()`) and hands the bytes, unmodified, to
`controller_state.set_nfc`; `file_content` stands for the full byte content
of the opened file. -/
def set_nfc_script (cs : ControllerState) (file_content : List Nat) : ControllerState :=
  cs.set_nfc (some file_content)

/-- Embedding of the `nfc` command closure of `_main`: `read_file` maps a
file path to the full byte content of that file. The guards mirror the
source order: first the `JOYCON_L` check, then the missing-argument check,
then the `remove` branch, else the dump-file branch. -/
def nfc_command (cs : ControllerState) (cmd_args : List String)
    (read_file : String → List Nat) : Except String ControllerState :=
  if cs.get_controller = Controller.JOYCON_L then
    Except.error ("NFC content cannot be set for JOYCON_L")
  else
    match cmd_args with
    | [] => Except.error ("nfc command requires file path to an nfc dump as argument")
    | a :: _ =>
        if a = "remove" then Except.ok (cs.set_nfc none)
        else Except.ok (set_nfc_script cs (read_file a))

/-! ### SPI flash seeding (run_controller_cli.py, lines 736-742) -/

/-- Modelled from the spec: the built-in default calibration/factory data
used when no dump file is supplied ("absence means built-in defaults are
used"). The exact default bytes live in `joycontrol/memory.py`, not among
the source files; they are modelled as a blank image of the documented
emulated SPI flash size. -/
def default_spi_flash : List Nat :=
  List.replicate 524288 255

/-- Modelled from the spec: `FlashMemory` ("a fixed-size addressable byte
array", "Seeded once at construction from a binary dump or from built-in
default calibration/factory data; immutable thereafter"). -/
structure FlashMemory where
  image : List Nat
deriving DecidableEq

/-- Modelled from the spec: `read(address, length)` is served iff the range
lies entirely within bounds and returns the seeded bytes at that range. -/
def FlashMemory.spi_flash_read (m : FlashMemory) (address length : Nat) :
    Option (List Nat) :=
  if address + length ≤ m.image.length then
    some ((m.image.drop address).take length)
  else
    none

/-- Embedding of the spi-flash seeding in `_main`: `some content` stands for
`args.spi_flash` naming a dump file with that byte content (read whole by
`spi_flash_file.read()`), `none` for the option being absent. -/
def main_spi_flash (spi_flash_arg : Option (List Nat)) : FlashMemory :=
  match spi_flash_arg with
  | some content => FlashMemory.mk content
  | none => FlashMemory.mk default_spi_flash

/-! ### The tail of `create_hid_server` (joycontrol/server.py, lines 112-127)

After the transport is constructed, the source runs

  `future = asyncio.ensure_future(_send_empty_input_reports(transport))`
  `await protocol.wait_for_output_report()`
  `return protocol.transport, protocol`

concurrently with the spawned `_send_empty_input_reports` task, whose body is
`for i in range(10): await transport.write(report); await asyncio.sleep(1)`.
The block between the `await` and the `return` (server.py lines 119-125,
holding `future.cancel()`) is a bare string literal, so no cancellation is
executed. The interleaving of the two tasks is modelled as a small-step
event semantics: an execution is any event list `serverRun` accepts. -/

/-- The joint state of the main coroutine of `create_hid_server` and the
spawned `_send_empty_input_reports` task.
`senderRemaining`: loop iterations the sender task has left (`range(10)`);
`senderCancelled`: whether `future.cancel()` has run (no executable
statement of the source calls it);
`firstReportReceived`: whether `protocol.wait_for_output_report()` has
completed, which is the arrival of the first output report;
`returned`: whether the `return` statement has executed. -/
structure ServerRunState where
  senderRemaining : Nat
  senderCancelled : Bool
  firstReportReceived : Bool
  returned : Bool
deriving DecidableEq

/-- The observable events of the two interleaved tasks. -/
inductive ServerEvent
  | sendEmpty
  | receiveOutputReport
  | serverReturn
deriving DecidableEq

/-- One interleaving step. `sendEmpty` is a `transport.write` of the empty
report by the sender task: enabled while the task is not cancelled and loop
iterations remain. `receiveOutputReport` is the arrival of the first output
report from the console (modelled from the spec:
`protocol.wait_for_output_report` lives in `joycontrol/protocol.py`, not
among the source files; per the spec the machine leaves
`AwaitingFirstContact` "on first received report"). `serverReturn` is the
`return` statement, reachable only after the `await` completed; it performs
no cancellation, since the cancellation block is a string literal. -/
def serverStep (s : ServerRunState) : ServerEvent → Option ServerRunState
  | ServerEvent.sendEmpty =>
      match s.senderCancelled, s.senderRemaining with
      | false, Nat.succ n =>
          some (ServerRunState.mk n false s.firstReportReceived s.returned)
      | _, _ => none
  | ServerEvent.receiveOutputReport =>
      match s.firstReportReceived with
      | false => some (ServerRunState.mk s.senderRemaining s.senderCancelled true s.returned)
      | true => none
  | ServerEvent.serverReturn =>
      match s.firstReportReceived, s.returned with
      | true, false => some (ServerRunState.mk s.senderRemaining s.senderCancelled true true)
      | _, _ => none

/-- Run a candidate event list from a state; `none` means the list is not a
possible execution. -/
def serverRun (s : ServerRunState) : List ServerEvent → Option ServerRunState
  | [] => some s
  | e :: es =>
      match serverStep s e with
      | some s2 => serverRun s2 es
      | none => none

/-- The state right after `asyncio.ensure_future(_send_empty_input_reports
transport)`: ten loop iterations pending (`for i in range(10)`), nothing
cancelled, no output report yet, not returned. -/
def serverInit : ServerRunState :=
  ServerRunState.mk 10 false false false

/-- Number of empty input reports transmitted in an event list. -/
def countSendEmpty : List ServerEvent → Nat
  | [] => 0
  | ServerEvent.sendEmpty :: rest => countSendEmpty rest + 1
  | _ :: rest => countSendEmpty rest

/-- The property asserted by the spec for the `AwaitingFirstContact` phase:
in every possible execution, no empty input report is transmitted after the
first output report has been received. -/
def noEmptyAfterFirstReport : Prop :=
  ∀ (pre post : List ServerEvent) (s : ServerRunState),
    serverRun serverInit (pre ++ ServerEvent.receiveOutputReport :: post) = some s →
    ServerEvent.sendEmpty ∉ post

/-! ### Connection establishment (joycontrol/server.py, lines 44-113)

The two branches of `create_hid_server` before the transport is constructed,
modelled as the sequence of socket operations each branch performs. The
initial-pairing branch creates two listening sockets, sets THEM non-blocking,
binds, listens and accepts one client connection on each (the `try`/`except`
rebinding fallback adds no socket-mode operation); the reconnect branch
creates the two client sockets itself, connects them and sets them
non-blocking. In both branches the L2CAP transport is then constructed over
the client sockets. -/

/-- The sockets `create_hid_server` touches: the two listening sockets of
the initial-pairing branch (`ctl_sock`, `itr_sock`) and the two sockets the
transport is built over (`client_ctl`, `client_itr`). -/
inductive SockId
  | listenerCtl
  | listenerItr
  | clientCtl
  | clientItr
deriving DecidableEq

/-- The socket operations of `create_hid_server`, in source order. -/
inductive SockOp
  | socketCreate (s : SockId)
  | setblockingFalse (s : SockId)
  | setsockoptReuseaddr (s : SockId)
  | bindSock (s : SockId)
  | listenSock (s : SockId)
  | sockAccept (listener : SockId) (client : SockId)
  | connectSock (s : SockId)
  | transportConstructed (itr : SockId) (ctl : SockId)
deriving DecidableEq

/-- The initial-pairing branch (server.py lines 45-97) followed by the
transport construction (line 113): `socket.socket(...)` twice,
`setblocking(False)` on the two listening sockets, `setsockopt`, `bind`,
`listen`, the two `loop.sock_accept` calls yielding `client_ctl` and
`client_itr`, then `L2CAP_Transport(..., client_itr, client_ctl, ...)`. -/
def initialPairingOps : List SockOp :=
  [SockOp.socketCreate SockId.listenerCtl,
   SockOp.socketCreate SockId.listenerItr,
   SockOp.setblockingFalse SockId.listenerCtl,
   SockOp.setblockingFalse SockId.listenerItr,
   SockOp.setsockoptReuseaddr SockId.listenerCtl,
   SockOp.setsockoptReuseaddr SockId.listenerItr,
   SockOp.bindSock SockId.listenerCtl,
   SockOp.bindSock SockId.listenerItr,
   SockOp.listenSock SockId.listenerCtl,
   SockOp.listenSock SockId.listenerItr,
   SockOp.sockAccept SockId.listenerCtl SockId.clientCtl,
   SockOp.sockAccept SockId.listenerItr SockId.clientItr,
   SockOp.transportConstructed SockId.clientItr SockId.clientCtl]

/-- The reconnection branch (server.py lines 103-110) followed by the
transport construction (line 113): create both client sockets, `connect`
each, `setblocking(False)` on each, then the transport over them. -/
def reconnectOps : List SockOp :=
  [SockOp.socketCreate SockId.clientCtl,
   SockOp.socketCreate SockId.clientItr,
   SockOp.connectSock SockId.clientCtl,
   SockOp.connectSock SockId.clientItr,
   SockOp.setblockingFalse SockId.clientCtl,
   SockOp.setblockingFalse SockId.clientItr,
   SockOp.transportConstructed SockId.clientItr SockId.clientCtl]

/-- Checks that every `transportConstructed itr ctl` in the operation list is
preceded by `setblockingFalse` on both sockets the transport is built over;
`nonBlocked` accumulates the sockets already set non-blocking. -/
def checkNonBlocking (nonBlocked : List SockId) : List SockOp → Bool
  | [] => true
  | SockOp.setblockingFalse s :: rest => checkNonBlocking (s :: nonBlocked) rest
  | SockOp.transportConstructed itr ctl :: rest =>
      decide (itr ∈ nonBlocked) && decide (ctl ∈ nonBlocked) &&
        checkNonBlocking nonBlocked rest
  | _ :: rest => checkNonBlocking nonBlocked rest

/-- The property the spec asserts of both connection paths: each channel
socket is set non-blocking before the L2CAP transport is constructed over
it. -/
def bothPathsNonBlockingBeforeTransport : Prop :=
  checkNonBlocking [] initialPairingOps = true ∧ checkNonBlocking [] reconnectOps = true

/-! ### The accept assertion (joycontrol/server.py, lines 92-97)

After accepting the control-channel and the interrupt-channel connections,
the source asserts `ctl_address[0] == itr_address[0]`. An address is the
pair (Bluetooth address, psm); the assertion compares the Bluetooth
addresses. On success the transport serves the single asserted peer. -/

/-- Embedding of the accept/assert step of the initial-pairing branch: the
two accepted peer addresses either pass the assertion (yielding the single
console address the connection serves) or fail it (`AssertionError`). -/
def initialPairingAccept (ctl_address itr_address : String × Nat) : Except String String :=
  if ctl_address.1 = itr_address.1 then Except.ok ctl_address.1
  else Except.error ("AssertionError")

/-- A freshly created Pro Controller state (used to evaluate the theorems on
a concrete input). -/
def proState : ControllerState :=
  ControllerState.mk Controller.PRO_CONTROLLER [] StickDirection.center StickDirection.center none

/-- A freshly created Joy-Con Left state. -/
def joyLState : ControllerState :=
  ControllerState.mk Controller.JOYCON_L [] StickDirection.center StickDirection.center none

/-- `proState` after pressing the `a` button. -/
def proStateA : ControllerState :=
  ControllerState.mk Controller.PRO_CONTROLLER [("a", true)] StickDirection.center
    StickDirection.center none

/-- `proState` after pressing and releasing the `a` button once. -/
def proStateAoff : ControllerState :=
  ControllerState.mk Controller.PRO_CONTROLLER [("a", false)] StickDirection.center
    StickDirection.center none

/-! ## Theorems -/

/-- Updating a key of a button association list makes that key read back the
written value. -/
theorem lookup_updateButtons (k : String) (v : Bool) :
    ∀ m : List (String × Bool), (updateButtons k v m).lookup k = some v := by
  intro m
  induction m with
  | nil => simp [updateButtons, List.lookup]
  | cons p rest ih =>
      obtain ⟨k2, v2⟩ := p
      by_cases h : k2 = k
      · simp [updateButtons, h, List.lookup]
      · simp only [updateButtons, if_neg h, List.lookup]
        have : (k == k2) = false := by
          simp [Ne.symm h]
        simp [this, ih]

/-- `set_button` succeeds exactly by updating the requested button and
leaving every other field alone. -/
theorem set_button_ok (cs cs2 : ControllerState) (name : String) (pushed : Bool)
    (h : cs.set_button name pushed = Except.ok cs2) :
    cs2.controller = cs.controller ∧ cs2.buttons = updateButtons name pushed cs.buttons ∧
    cs2.l_stick_state = cs.l_stick_state ∧ cs2.r_stick_state = cs.r_stick_state ∧
    cs2.nfc_content = cs.nfc_content := by
  unfold ControllerState.set_button at h
  split at h
  · injection h with h2
    subst h2
    exact ⟨rfl, rfl, rfl, rfl, rfl⟩
  · exact Except.noConfusion h

/-- Claim C3: if a spi_flash dump file is supplied, the flash image is its
byte content loaded byte-for-byte; otherwise the built-in defaults seed it;
and flash reads are served from the seeded image. -/
theorem spi_flash_seeding :
    (∀ content : List Nat, (main_spi_flash (some content)).image = content) ∧
    (main_spi_flash none).image = default_spi_flash ∧
    (∀ (arg : Option (List Nat)) (address len : Nat),
      address + len ≤ (main_spi_flash arg).image.length →
      (main_spi_flash arg).spi_flash_read address len =
        some (((main_spi_flash arg).image.drop address).take len)) := by
  refine ⟨fun content => rfl, rfl, fun arg address len h => ?_⟩
  unfold FlashMemory.spi_flash_read
  rw [if_pos h]

/-- Witness for C3: a three-byte dump seeds exactly those bytes, the absent
dump seeds the defaults, and an in-bounds read returns the seeded range. -/
theorem spi_flash_seeding_witness :
    (main_spi_flash (some [1, 2, 3])).image = [1, 2, 3] ∧
    (main_spi_flash none).image = default_spi_flash ∧
    (main_spi_flash (some [1, 2, 3])).spi_flash_read 1 2 =
      some (((main_spi_flash (some [1, 2, 3])).image.drop 1).take 2) :=
  ⟨spi_flash_seeding.1 [1, 2, 3], spi_flash_seeding.2.1,
   spi_flash_seeding.2.2 (some [1, 2, 3]) 1 2 (by decide)⟩

/-- Claim C4: a button name that is not among the available buttons of the
configured variant makes `mash_button` raise before any press is performed,
and makes `set_button` raise `UnsupportedControl`; neither returns a mutated
state. -/
theorem mash_unavailable_button_rejected
    (cs : ControllerState) (button : String) (iterations : Nat) (pushed : Bool)
    (h : button ∉ get_available_buttons cs.controller) :
    mash_button cs button iterations =
      Except.error ("Button " ++ button ++ " does not exist on the controller") ∧
    cs.set_button button pushed = Except.error ("UnsupportedControl") := by
  constructor
  · unfold mash_button
    rw [if_pos h]
  · unfold ControllerState.set_button
    rw [if_neg h]

/-- Witness for C4 at the Pro Controller state and the name `nosuch`. -/
theorem mash_unavailable_button_rejected_witness :
    ("nosuch" ∉ get_available_buttons proState.controller) ∧
    (mash_button proState ("nosuch") 3 =
      Except.error ("Button " ++ "nosuch" ++ " does not exist on the controller") ∧
    ControllerState.set_button proState ("nosuch") true =
      Except.error ("UnsupportedControl")) :=
  ⟨by decide, mash_unavailable_button_rejected proState ("nosuch") 3 true (by decide)⟩

/-- Claim C5: `set_nfc` sets the NFC payload to exactly the raw bytes of the
dump file, `nfc remove` clears it to `none`, and neither operation modifies
any other controller-state field. -/
theorem nfc_set_and_remove
    (cs : ControllerState) (file_content : List Nat)
    (read_file : String → List Nat) (rest : List String)
    (h : cs.get_controller ≠ Controller.JOYCON_L) :
    ((set_nfc_script cs file_content).nfc_content = some file_content ∧
      (set_nfc_script cs file_content).controller = cs.controller ∧
      (set_nfc_script cs file_content).buttons = cs.buttons ∧
      (set_nfc_script cs file_content).l_stick_state = cs.l_stick_state ∧
      (set_nfc_script cs file_content).r_stick_state = cs.r_stick_state) ∧
    (nfc_command cs (("remove") :: rest) read_file = Except.ok (cs.set_nfc none) ∧
      (cs.set_nfc none).nfc_content = none ∧
      (cs.set_nfc none).controller = cs.controller ∧
      (cs.set_nfc none).buttons = cs.buttons ∧
      (cs.set_nfc none).l_stick_state = cs.l_stick_state ∧
      (cs.set_nfc none).r_stick_state = cs.r_stick_state) := by
  refine ⟨⟨rfl, rfl, rfl, rfl, rfl⟩, ?_, rfl, rfl, rfl, rfl, rfl⟩
  unfold nfc_command
  rw [if_neg h]
  simp

/-- Witness for C5 at the Pro Controller state and the dump bytes `[7, 8]`. -/
theorem nfc_set_and_remove_witness :
    proState.get_controller ≠ Controller.JOYCON_L ∧
    ((set_nfc_script proState [7, 8]).nfc_content = some [7, 8] ∧
      nfc_command proState (("remove") :: ([] : List String)) (fun _ => []) =
        Except.ok (proState.set_nfc none) ∧
      (proState.set_nfc none).nfc_content = none) :=
  ⟨by decide,
   (nfc_set_and_remove proState [7, 8] (fun _ => []) [] (by decide)).1.1,
   (nfc_set_and_remove proState [7, 8] (fun _ => []) [] (by decide)).2.1,
   (nfc_set_and_remove proState [7, 8] (fun _ => []) [] (by decide)).2.2.1⟩

/-- Claim C7: the `nfc` command raises `ValueError` and leaves the NFC
payload untouched when the emulated variant is Joy-Con Left or when it is
invoked with no arguments; with an argument on any other variant it sets the
payload, and clears it for `remove`. -/
theorem nfc_command_guards
    (cs : ControllerState) (cmd_args : List String) (read_file : String → List Nat) :
    (cs.get_controller = Controller.JOYCON_L →
      nfc_command cs cmd_args read_file =
        Except.error ("NFC content cannot be set for JOYCON_L")) ∧
    (cs.get_controller ≠ Controller.JOYCON_L → cmd_args = [] →
      nfc_command cs cmd_args read_file =
        Except.error ("nfc command requires file path to an nfc dump as argument")) ∧
    (∀ rest, cs.get_controller ≠ Controller.JOYCON_L → cmd_args = ("remove") :: rest →
      nfc_command cs cmd_args read_file = Except.ok (cs.set_nfc none)) ∧
    (∀ a rest, cs.get_controller ≠ Controller.JOYCON_L → cmd_args = a :: rest →
      a ≠ ("remove") →
      nfc_command cs cmd_args read_file = Except.ok (cs.set_nfc (some (read_file a)))) := by
  refine ⟨fun h => ?_, fun h he => ?_, fun rest h he => ?_, fun a rest h he ha => ?_⟩
  · unfold nfc_command
    rw [if_pos h]
  · subst he
    unfold nfc_command
    rw [if_neg h]
  · subst he
    unfold nfc_command
    rw [if_neg h]
    simp
  · subst he
    unfold nfc_command
    rw [if_neg h]
    simp [ha, set_nfc_script]

/-- Witness for C7: all four guard outcomes on concrete states and argument
lists. -/
theorem nfc_command_guards_witness :
    nfc_command joyLState [("x")] (fun _ => [9]) =
      Except.error ("NFC content cannot be set for JOYCON_L") ∧
    nfc_command proState [] (fun _ => [9]) =
      Except.error ("nfc command requires file path to an nfc dump as argument") ∧
    nfc_command proState [("remove")] (fun _ => [9]) = Except.ok (proState.set_nfc none) ∧
    nfc_command proState [("dump.bin")] (fun _ => [9]) =
      Except.ok (proState.set_nfc (some [9])) :=
  ⟨(nfc_command_guards joyLState [("x")] (fun _ => [9])).1 rfl,
   (nfc_command_guards proState [] (fun _ => [9])).2.1 (by decide) rfl,
   (nfc_command_guards proState [("remove")] (fun _ => [9])).2.2.1 [] (by decide) rfl,
   (nfc_command_guards proState [("dump.bin")] (fun _ => [9])).2.2.2 ("dump.bin") []
     (by decide) rfl (by decide)⟩

/-- Claim C8: after accepting both channel connections in the
initial-pairing path, the asserted equality of the two peer Bluetooth
addresses means a passing run serves a single console address, while two
connections from different peers fail the assertion instead of yielding a
transport. -/
theorem accepted_peers_match (ctl_address itr_address : String × Nat) (a : String) :
    (initialPairingAccept ctl_address itr_address = Except.ok a →
      ctl_address.1 = a ∧ itr_address.1 = a) ∧
    (ctl_address.1 ≠ itr_address.1 →
      initialPairingAccept ctl_address itr_address = Except.error ("AssertionError")) := by
  constructor
  · intro h
    unfold initialPairingAccept at h
    split at h
    · rename_i heq
      injection h with h2
      exact ⟨h2, heq.symm.trans h2⟩
    · exact Except.noConfusion h
  · intro hne
    unfold initialPairingAccept
    rw [if_neg hne]

/-- Witness for C8: equal peers pass and identify the single served address;
different peers trip the assertion. -/
theorem accepted_peers_match_witness :
    (("aa:bb", (17 : Nat)).1 = "aa:bb" ∧ ("aa:bb", (19 : Nat)).1 = "aa:bb") ∧
    initialPairingAccept ("aa:bb", 17) ("cc:dd", 19) = Except.error ("AssertionError") :=
  ⟨(accepted_peers_match ("aa:bb", 17) ("aa:bb", 19) ("aa:bb")).1 rfl,
   (accepted_peers_match ("aa:bb", 17) ("cc:dd", 19) ("aa:bb")).2 (by decide)⟩

/-- Claim C9 counterexample: the property "both connection paths set both
channel sockets non-blocking before the transport is constructed over them"
fails, because in the initial-pairing path `create_hid_server` applies
`setblocking(False)` only to the listening sockets, never to the accepted
sockets the transport is built over. -/
theorem nonblocking_before_transport_refuted : ¬ bothPathsNonBlockingBeforeTransport := by
  unfold bothPathsNonBlockingBeforeTransport
  decide

/-- Claim C9 amended: in the reconnection path both channel sockets are set
non-blocking before the transport is constructed; in the initial-pairing
path `create_hid_server` sets only the listening sockets non-blocking, and
applies no `setblocking` call to the accepted channel sockets over which the
transport is then constructed. -/
theorem nonblocking_paths_amended :
    checkNonBlocking [] reconnectOps = true ∧
    SockOp.setblockingFalse SockId.listenerCtl ∈ initialPairingOps ∧
    SockOp.setblockingFalse SockId.listenerItr ∈ initialPairingOps ∧
    SockOp.setblockingFalse SockId.clientCtl ∉ initialPairingOps ∧
    SockOp.setblockingFalse SockId.clientItr ∉ initialPairingOps ∧
    SockOp.transportConstructed SockId.clientItr SockId.clientCtl ∈ initialPairingOps := by
  decide

/-- Bookkeeping along any execution: each transmitted empty report consumes
one pending loop iteration of the sender task, and no step ever changes the
cancellation flag. -/
theorem serverRun_send_count (trace : List ServerEvent) :
    ∀ s0 s : ServerRunState, serverRun s0 trace = some s →
      countSendEmpty trace + s.senderRemaining = s0.senderRemaining ∧
      s.senderCancelled = s0.senderCancelled := by
  induction trace with
  | nil =>
      intro s0 s h
      simp [serverRun] at h
      subst h
      simp [countSendEmpty]
  | cons e rest ih =>
      intro s0 s h
      obtain ⟨rem, canc, fst, ret⟩ := s0
      cases e with
      | sendEmpty =>
          cases canc with
          | true => simp [serverRun, serverStep] at h
          | false =>
              cases rem with
              | zero => simp [serverRun, serverStep] at h
              | succ n =>
                  have h2 : serverRun (ServerRunState.mk n false fst ret) rest = some s := h
                  obtain ⟨ha, hb⟩ := ih (ServerRunState.mk n false fst ret) s h2
                  refine ⟨?_, ?_⟩
                  · simp only [countSendEmpty]
                    simp only [ServerRunState.senderRemaining] at ha ⊢
                    omega
                  · exact hb
      | receiveOutputReport =>
          cases fst with
          | true => simp [serverRun, serverStep] at h
          | false =>
              have h2 : serverRun (ServerRunState.mk rem canc true ret) rest = some s := h
              obtain ⟨ha, hb⟩ := ih (ServerRunState.mk rem canc true ret) s h2
              exact ⟨ha, hb⟩
      | serverReturn =>
          cases fst with
          | false => simp [serverRun, serverStep] at h
          | true =>
              cases ret with
              | true => simp [serverRun, serverStep] at h
              | false =>
                  have h2 : serverRun (ServerRunState.mk rem canc true true) rest = some s := h
                  obtain ⟨ha, hb⟩ := ih (ServerRunState.mk rem canc true true) s h2
                  exact ⟨ha, hb⟩

/-- Claim C1 counterexample: an execution in which the first output report
has arrived and the sender task still transmits an empty input report is
possible — the sender is not stopped on first contact (the cancellation
block of server.py lines 119-125 is a bare string literal), so the claimed
property `noEmptyAfterFirstReport` is false. -/
theorem empty_report_after_first_contact : ¬ noEmptyAfterFirstReport := by
  intro h
  have h2 := h [] [ServerEvent.sendEmpty] (ServerRunState.mk 9 false true false) rfl
  simp at h2

/-- Claim C1 amended: the empty-report sender is a fire-and-forget task that
is never cancelled — empty input reports may still be transmitted after the
first output report arrives — and it terminates on its own after at most the
ten reports of its `for i in range(10)` loop. -/
theorem empty_sender_bounded_not_cancelled (trace : List ServerEvent) (s : ServerRunState)
    (h : serverRun serverInit trace = some s) :
    countSendEmpty trace ≤ 10 ∧ s.senderCancelled = false := by
  obtain ⟨h1, h2⟩ := serverRun_send_count trace serverInit s h
  have h1b : countSendEmpty trace + s.senderRemaining = 10 := h1
  have h2b : s.senderCancelled = false := h2
  exact ⟨by omega, h2b⟩

/-- Witness for the amended C1: the two-event execution that receives the
first report and then still sends an empty report. -/
theorem empty_sender_bounded_not_cancelled_witness :
    serverRun serverInit [ServerEvent.receiveOutputReport, ServerEvent.sendEmpty] =
      some (ServerRunState.mk 9 false true false) ∧
    (countSendEmpty [ServerEvent.receiveOutputReport, ServerEvent.sendEmpty] ≤ 10 ∧
      (ServerRunState.mk 9 false true false).senderCancelled = false) :=
  ⟨rfl, empty_sender_bounded_not_cancelled
    [ServerEvent.receiveOutputReport, ServerEvent.sendEmpty]
    (ServerRunState.mk 9 false true false) rfl⟩

/-- The step relation preserves "returned implies first report received". -/
theorem serverRun_return_requires_report (trace : List ServerEvent) :
    ∀ s0 s : ServerRunState, serverRun s0 trace = some s →
      (s0.returned = true → s0.firstReportReceived = true) →
      s.returned = true → s.firstReportReceived = true := by
  induction trace with
  | nil =>
      intro s0 s h hinv
      simp [serverRun] at h
      subst h
      exact hinv
  | cons e rest ih =>
      intro s0 s h hinv
      obtain ⟨rem, canc, fst, ret⟩ := s0
      cases e with
      | sendEmpty =>
          cases canc with
          | true => simp [serverRun, serverStep] at h
          | false =>
              cases rem with
              | zero => simp [serverRun, serverStep] at h
              | succ n =>
                  exact ih (ServerRunState.mk n false fst ret) s h hinv
      | receiveOutputReport =>
          cases fst with
          | true => simp [serverRun, serverStep] at h
          | false =>
              exact ih (ServerRunState.mk rem canc true ret) s h (fun _ => rfl)
      | serverReturn =>
          cases fst with
          | false => simp [serverRun, serverStep] at h
          | true =>
              cases ret with
              | true => simp [serverRun, serverStep] at h
              | false =>
                  exact ih (ServerRunState.mk rem canc true true) s h (fun _ => rfl)

/-- Claim C6: `create_hid_server` executes its `return` statement only after
`protocol.wait_for_output_report()` has completed, so every execution in
which the function has returned has already received the first output
report from the console. -/
theorem create_hid_server_returns_after_first_report
    (trace : List ServerEvent) (s : ServerRunState)
    (h : serverRun serverInit trace = some s) (hret : s.returned = true) :
    s.firstReportReceived = true :=
  serverRun_return_requires_report trace serverInit s h
    (fun hr => absurd hr (by decide)) hret

/-- Witness for C6: the execution that receives the first report and then
returns. -/
theorem create_hid_server_returns_after_first_report_witness :
    serverRun serverInit [ServerEvent.receiveOutputReport, ServerEvent.serverReturn] =
      some (ServerRunState.mk 10 false true true) ∧
    (ServerRunState.mk 10 false true true).returned = true ∧
    (ServerRunState.mk 10 false true true).firstReportReceived = true :=
  ⟨rfl, rfl, create_hid_server_returns_after_first_report
    [ServerEvent.receiveOutputReport, ServerEvent.serverReturn]
    (ServerRunState.mk 10 false true true) rfl rfl⟩

/-- The stick-transition names of `directStateSet` are disjoint from its
button names (left sticks). -/
theorem lStick_not_btns : ∀ x ∈ lStickList, x ∉ btnsList := by decide

/-- The stick-transition names of `directStateSet` are disjoint from its
button names (right sticks). -/
theorem rStick_not_btns : ∀ x ∈ rStickList, x ∉ btnsList := by decide

/-- Full characterization of a successful `directStateSet` call: the variant
is untouched, a recognized transition commits exactly one report encoding
the mutated snapshot, and the mutation is the requested one. -/
theorem directStateSet_spec (btnTrans : String) (cs cs2 : ControllerState)
    (sent sent2 : List InputReport)
    (h : directStateSet btnTrans cs sent = Except.ok (cs2, sent2)) :
    cs2.controller = cs.controller ∧
    ((btnTrans ∈ btnsList ∨ btnTrans ∈ lStickList ∨ btnTrans ∈ rStickList) →
      sent2 = sent ++ [encode_input cs2]) ∧
    (btnTrans ∈ btnsList → buttonPressed cs2.buttons btnTrans = true) ∧
    (btnTrans ∈ lStickList → cs2.l_stick_state = stickDirOf btnTrans) ∧
    (btnTrans ∈ rStickList → cs2.r_stick_state = stickDirOf btnTrans) := by
  by_cases hb : btnTrans ∈ btnsList
  · unfold directStateSet at h
    rw [if_pos hb] at h
    cases hsb : cs.set_button btnTrans true with
    | error e => rw [hsb] at h; exact Except.noConfusion h
    | ok csx =>
        rw [hsb] at h
        injection h with h3
        injection h3 with h4 h5
        subst h4
        subst h5
        refine ⟨(set_button_ok cs csx btnTrans true hsb).1, fun _ => rfl, fun _ => ?_,
          fun hmem => absurd hb (lStick_not_btns btnTrans hmem),
          fun hmem => absurd hb (rStick_not_btns btnTrans hmem)⟩
        rw [(set_button_ok cs csx btnTrans true hsb).2.1]
        simp [buttonPressed, lookup_updateButtons]
  · by_cases hl : btnTrans ∈ lStickList
    · fin_cases hl
      · have e : directStateSet ("lStickUp") cs sent =
            Except.ok ({ cs with l_stick_state := StickDirection.up },
              ControllerState.send { cs with l_stick_state := StickDirection.up } sent) := rfl
        rw [e] at h
        injection h with h3
        injection h3 with h4 h5
        subst h4
        subst h5
        exact ⟨rfl, fun _ => rfl, fun hmem => absurd hmem (by decide), fun _ => rfl,
          fun hmem => absurd hmem (by decide)⟩
      · have e : directStateSet ("lStickDown") cs sent =
            Except.ok ({ cs with l_stick_state := StickDirection.down },
              ControllerState.send { cs with l_stick_state := StickDirection.down } sent) := rfl
        rw [e] at h
        injection h with h3
        injection h3 with h4 h5
        subst h4
        subst h5
        exact ⟨rfl, fun _ => rfl, fun hmem => absurd hmem (by decide), fun _ => rfl,
          fun hmem => absurd hmem (by decide)⟩
      · have e : directStateSet ("lStickL") cs sent =
            Except.ok ({ cs with l_stick_state := StickDirection.left },
              ControllerState.send { cs with l_stick_state := StickDirection.left } sent) := rfl
        rw [e] at h
        injection h with h3
        injection h3 with h4 h5
        subst h4
        subst h5
        exact ⟨rfl, fun _ => rfl, fun hmem => absurd hmem (by decide), fun _ => rfl,
          fun hmem => absurd hmem (by decide)⟩
      · have e : directStateSet ("lStickR") cs sent =
            Except.ok ({ cs with l_stick_state := StickDirection.right },
              ControllerState.send { cs with l_stick_state := StickDirection.right } sent) := rfl
        rw [e] at h
        injection h with h3
        injection h3 with h4 h5
        subst h4
        subst h5
        exact ⟨rfl, fun _ => rfl, fun hmem => absurd hmem (by decide), fun _ => rfl,
          fun hmem => absurd hmem (by decide)⟩
    · by_cases hr : btnTrans ∈ rStickList
      · fin_cases hr
        · have e : directStateSet ("rStickUp") cs sent =
              Except.ok ({ cs with r_stick_state := StickDirection.up },
                ControllerState.send { cs with r_stick_state := StickDirection.up } sent) := rfl
          rw [e] at h
          injection h with h3
          injection h3 with h4 h5
          subst h4
          subst h5
          exact ⟨rfl, fun _ => rfl, fun hmem => absurd hmem (by decide),
            fun hmem => absurd hmem (by decide), fun _ => rfl⟩
        · have e : directStateSet ("rStickDown") cs sent =
              Except.ok ({ cs with r_stick_state := StickDirection.down },
                ControllerState.send { cs with r_stick_state := StickDirection.down } sent) := rfl
          rw [e] at h
          injection h with h3
          injection h3 with h4 h5
          subst h4
          subst h5
          exact ⟨rfl, fun _ => rfl, fun hmem => absurd hmem (by decide),
            fun hmem => absurd hmem (by decide), fun _ => rfl⟩
        · have e : directStateSet ("rStickL") cs sent =
              Except.ok ({ cs with r_stick_state := StickDirection.left },
                ControllerState.send { cs with r_stick_state := StickDirection.left } sent) := rfl
          rw [e] at h
          injection h with h3
          injection h3 with h4 h5
          subst h4
          subst h5
          exact ⟨rfl, fun _ => rfl, fun hmem => absurd hmem (by decide),
            fun hmem => absurd hmem (by decide), fun _ => rfl⟩
        · have e : directStateSet ("rStickR") cs sent =
              Except.ok ({ cs with r_stick_state := StickDirection.right },
                ControllerState.send { cs with r_stick_state := StickDirection.right } sent) := rfl
          rw [e] at h
          injection h with h3
          injection h3 with h4 h5
          subst h4
          subst h5
          exact ⟨rfl, fun _ => rfl, fun hmem => absurd hmem (by decide),
            fun hmem => absurd hmem (by decide), fun _ => rfl⟩
      · unfold directStateSet at h
        rw [if_neg hb, if_neg hl, if_neg hr] at h
        injection h with h3
        injection h3 with h4 h5
        subst h4
        subst h5
        refine ⟨rfl, fun hmem => ?_, fun hmem => absurd hmem hb,
          fun hmem => absurd hmem hl, fun hmem => absurd hmem hr⟩
        rcases hmem with hm | hm | hm
        · exact absurd hm hb
        · exact absurd hm hl
        · exact absurd hm hr

/-- Claim C2: every `mutate then await send()` step of `directStateSet`
hands the transport, before the await completes, an input report encoding
the just-mutated controller-state snapshot: the transport list grows by
exactly the report of the new state, which carries the requested button
press or stick direction. -/
theorem direct_state_set_commits
    (btnTrans : String) (cs cs2 : ControllerState) (sent sent2 : List InputReport)
    (h : directStateSet btnTrans cs sent = Except.ok (cs2, sent2)) :
    ((btnTrans ∈ btnsList ∨ btnTrans ∈ lStickList ∨ btnTrans ∈ rStickList) →
      sent2 = sent ++ [encode_input cs2]) ∧
    (btnTrans ∈ btnsList → buttonPressed cs2.buttons btnTrans = true) ∧
    (btnTrans ∈ lStickList → cs2.l_stick_state = stickDirOf btnTrans) ∧
    (btnTrans ∈ rStickList → cs2.r_stick_state = stickDirOf btnTrans) :=
  (directStateSet_spec btnTrans cs cs2 sent sent2 h).2

/-- Witness for C2: pressing `a` on a fresh Pro Controller state commits one
report that shows the `a` button pressed. -/
theorem direct_state_set_commits_witness :
    directStateSet ("a") proState [] = Except.ok (proStateA, [encode_input proStateA]) ∧
    (([encode_input proStateA] : List InputReport) = [] ++ [encode_input proStateA] ∧
      buttonPressed proStateA.buttons ("a") = true) := by
  refine ⟨rfl, ?_, ?_⟩
  · exact (direct_state_set_commits ("a") proState proStateA [] [encode_input proStateA]
      rfl).1 (Or.inl (by decide))
  · exact (direct_state_set_commits ("a") proState proStateA [] [encode_input proStateA]
      rfl).2.1 (by decide)

/-- A successful `button_push` (press, then release) leaves the variant
unchanged. -/
theorem button_push_controller (cs cs2 : ControllerState) (button : String)
    (h : button_push cs button = Except.ok cs2) : cs2.controller = cs.controller := by
  unfold button_push at h
  cases h1 : cs.set_button button true with
  | error e => rw [h1] at h; exact Except.noConfusion h
  | ok csx =>
      rw [h1] at h
      have hA : (match csx.set_button button false with
          | Except.error e => (Except.error e : Except String ControllerState)
          | Except.ok cs3 => Except.ok cs3) = Except.ok cs2 := h
      cases h2 : csx.set_button button false with
      | error e => rw [h2] at hA; exact Except.noConfusion hA
      | ok csy =>
          rw [h2] at hA
          injection hA with h3
          subst h3
          exact ((set_button_ok csx csy button false h2).1).trans
            (set_button_ok cs csx button true h1).1

/-- The mash loop leaves the variant unchanged. -/
theorem mash_loop_controller (button : String) :
    ∀ (n : Nat) (cs cs2 : ControllerState) (k : Nat),
      mash_loop button cs n = Except.ok (cs2, k) → cs2.controller = cs.controller := by
  intro n
  induction n with
  | zero =>
      intro cs cs2 k h
      injection h with h3
      injection h3 with h4 h5
      subst h4
      rfl
  | succ m ih =>
      intro cs cs2 k h
      cases h1 : button_push cs button with
      | error e =>
          simp only [mash_loop, h1] at h
          exact Except.noConfusion h
      | ok csx =>
          simp only [mash_loop, h1] at h
          cases h2 : mash_loop button csx m with
          | error e => rw [h2] at h; exact Except.noConfusion h
          | ok p =>
              obtain ⟨cs3, k2⟩ := p
              rw [h2] at h
              injection h with h3
              injection h3 with h4 h5
              subst h4
              exact (ih csx cs3 k2 h2).trans (button_push_controller cs csx button h1)

/-- `nfc_command` never changes the variant. -/
theorem nfc_command_controller (cs cs2 : ControllerState) (cmd_args : List String)
    (read_file : String → List Nat)
    (h : nfc_command cs cmd_args read_file = Except.ok cs2) :
    cs2.controller = cs.controller := by
  unfold nfc_command at h
  split at h
  · exact Except.noConfusion h
  · cases cmd_args with
    | nil => exact Except.noConfusion h
    | cons a rest =>
        have h2 : (if a = "remove" then Except.ok (cs.set_nfc none)
            else Except.ok (set_nfc_script cs (read_file a))) = Except.ok cs2 := h
        split at h2
        · injection h2 with h3
          subst h3
          rfl
        · injection h2 with h3
          subst h3
          rfl

/-- Claim C10: the controller variant comes from the three fixed
identifiers chosen once by `Controller.from_arg`, and every later operation
of the command-line layer observes the same variant through
`get_controller`: `set_nfc`, `set_button`, `directStateSet`, `nfc_command`
and `mash_button` all leave it unchanged. -/
theorem controller_variant_immutable :
    (∀ s c, Controller.from_arg s = Except.ok c →
      (s = ("JOYCON_L") ∧ c = Controller.JOYCON_L) ∨
      (s = ("JOYCON_R") ∧ c = Controller.JOYCON_R) ∨
      (s = ("PRO_CONTROLLER") ∧ c = Controller.PRO_CONTROLLER)) ∧
    (∀ (cs : ControllerState) v, (cs.set_nfc v).get_controller = cs.get_controller) ∧
    (∀ (cs cs2 : ControllerState) name pushed, cs.set_button name pushed = Except.ok cs2 →
      cs2.get_controller = cs.get_controller) ∧
    (∀ (btnTrans : String) (cs cs2 : ControllerState) (sent sent2 : List InputReport),
      directStateSet btnTrans cs sent = Except.ok (cs2, sent2) →
      cs2.get_controller = cs.get_controller) ∧
    (∀ (cs cs2 : ControllerState) (cmd_args : List String) (read_file : String → List Nat),
      nfc_command cs cmd_args read_file = Except.ok cs2 →
      cs2.get_controller = cs.get_controller) ∧
    (∀ (cs cs2 : ControllerState) (button : String) (iterations k : Nat),
      mash_button cs button iterations = Except.ok (cs2, k) →
      cs2.get_controller = cs.get_controller) := by
  refine ⟨fun s c h => ?_, fun cs v => rfl, fun cs cs2 name pushed h => ?_,
    fun btnTrans cs cs2 sent sent2 h => ?_, fun cs cs2 cmd_args read_file h => ?_,
    fun cs cs2 button iterations k h => ?_⟩
  · unfold Controller.from_arg at h
    split at h
    · rename_i h1
      injection h with h2
      exact Or.inl ⟨h1, h2.symm⟩
    · split at h
      · rename_i h1
        injection h with h2
        exact Or.inr (Or.inl ⟨h1, h2.symm⟩)
      · split at h
        · rename_i h1
          injection h with h2
          exact Or.inr (Or.inr ⟨h1, h2.symm⟩)
        · exact Except.noConfusion h
  · exact (set_button_ok cs cs2 name pushed h).1
  · exact (directStateSet_spec btnTrans cs cs2 sent sent2 h).1
  · exact nfc_command_controller cs cs2 cmd_args read_file h
  · unfold mash_button at h
    split at h
    · exact Except.noConfusion h
    · exact mash_loop_controller button iterations cs cs2 k h

/-- Witness for C10: the variant chosen from `JOYCON_R`, and variant
preservation across each operation on concrete states. -/
theorem controller_variant_immutable_witness :
    ((("JOYCON_R" : String) = ("JOYCON_L") ∧ Controller.JOYCON_R = Controller.JOYCON_L) ∨
      (("JOYCON_R" : String) = ("JOYCON_R") ∧ Controller.JOYCON_R = Controller.JOYCON_R) ∨
      (("JOYCON_R" : String) = ("PRO_CONTROLLER") ∧
        Controller.JOYCON_R = Controller.PRO_CONTROLLER)) ∧
    (proState.set_nfc (some [1])).get_controller = proState.get_controller ∧
    proStateA.get_controller = proState.get_controller ∧
    proStateA.get_controller = proState.get_controller ∧
    (proState.set_nfc none).get_controller = proState.get_controller ∧
    proStateAoff.get_controller = proState.get_controller :=
  ⟨controller_variant_immutable.1 ("JOYCON_R") Controller.JOYCON_R rfl,
   controller_variant_immutable.2.1 proState (some [1]),
   controller_variant_immutable.2.2.1 proState proStateA ("a") true rfl,
   controller_variant_immutable.2.2.2.1 ("a") proState proStateA []
     [encode_input proStateA] rfl,
   controller_variant_immutable.2.2.2.2.1 proState (proState.set_nfc none) [("remove")]
     (fun _ => []) rfl,
   controller_variant_immutable.2.2.2.2.2 proState proStateAoff ("a") 1 1 rfl⟩

end Joycontrol
